import Mathlib

/-!
Verification of the ssd_core_engine repository against its specification.

The Python sources are shallowly embedded in Lean:
* floating point numbers are modelled as rationals (`ℚ`), except for the two
  leap controllers, which use transcendental functions (`exp`, `sin`, `cos`,
  `tanh`) and are therefore modelled over the reals (`ℝ`);
* Python dictionaries are modelled as association lists (iteration order is
  the insertion order, exactly as in CPython);
* every call to the random number generator is modelled by an explicit input
  (a draw passed as an argument), so the embedded functions are deterministic
  functions of their inputs and of the random draws.
-/

namespace SSD

/-! ### Data model (src/ssd_core_engine/ssd_types.py) -/

/-- The four structural layers, in enum declaration order
(`class LayerType(Enum)` in ssd_types.py). -/
inductive LayerType where
  | PHYSICAL
  | BASE
  | CORE
  | UPPER
deriving DecidableEq, Repr, Fintype

/-- Iteration order of `for layer in LayerType` (Python enum order). -/
def all_layers : List LayerType :=
  [LayerType.PHYSICAL, LayerType.BASE, LayerType.CORE, LayerType.UPPER]

/-- `LayerType.get_survival_weight` from ssd_types.py. -/
def LayerType.get_survival_weight : LayerType → ℚ
  | .PHYSICAL => 1
  | .BASE => 0.9
  | .CORE => 0.6
  | .UPPER => 0.3

/-- The engine's `layer_mobility` table (ssd_engine.py, `__init__`). -/
def engine_layer_mobility : LayerType → ℚ
  | .PHYSICAL => 0.1
  | .BASE => 0.3
  | .CORE => 0.6
  | .UPPER => 0.9

/-- `ObjectInfo` from ssd_types.py.  `survival_relevance` is derived by the
constructor in the source (`calculate_survival_relevance`); here it is carried
as a field, i.e. the record stores whatever value that derivation produced.
`meaning_values` is total because `__post_init__` fills every layer with a
default of 0. -/
structure ObjectInfo where
  id : String
  type : String
  current_value : ℚ := 0
  decline_rate : ℚ := 0
  volatility : ℚ := 0.1
  survival_relevance : ℚ := 0
  meaning_values : LayerType → ℚ := fun _ => 0
deriving DecidableEq

/-- `StructuralState` from ssd_types.py. -/
structure StructuralState where
  layer : LayerType
  connections : List (String × ℚ) := []
  activation : ℚ := 0
  stability : ℚ := 1
  kappa : List (String × ℚ) := []
deriving DecidableEq

/-- Dictionary lookup on an association list (Python `d.get(k)` /
`k in d` + `d[k]`). -/
def lookupAssoc {β : Type} (l : List (String × β)) (k : String) : Option β :=
  (l.find? (fun p => decide (p.1 = k))).map (fun p => p.2)

/-! ### MeaningPressureProcessor (src/ssd_meaning_pressure.py) -/

/-- Mutable state of `MeaningPressureProcessor`: the unresolved-pressure scalar
`E` and the experience log (entries record source id, pressure, and the value
of `E` after the addition; the `timestamp` field of the source is the index in
the log, which needs no separate field here). -/
structure MeaningState where
  E : ℚ := 0
  experience_log : List (String × ℚ × ℚ) := []
deriving DecidableEq

/-- `MeaningPressureProcessor.add_meaning_pressure`. -/
def add_meaning_pressure (st : MeaningState) (pressure : ℚ) (source_id : String) :
    MeaningState :=
  let newE := min 10 (st.E + pressure * 0.3)
  { E := newE,
    experience_log := st.experience_log ++ [(source_id, pressure, newE)] }

/-- `MeaningPressureProcessor.natural_decay` (default `decay_rate = 0.95`). -/
def natural_decay (st : MeaningState) (decay_rate : ℚ) : MeaningState :=
  { st with E := max 0 (st.E * decay_rate) }

/-- Loop body of `calculate_layer_meaning_pressure`: accumulates
(alignment_resistance, structural_interaction) over the existing structures of
the layer.  `sim element_id layer` stands for the value returned by
`calculate_enhanced_similarity` (which mixes deterministic bonuses with a
bounded random perturbation and memoises the result per
(entity, element, layer); since the memoised value is fixed for the whole
call, it is modelled as an input function). -/
def layer_rs_step (sim : String → LayerType → ℚ) (layer : LayerType)
    (acc : ℚ × ℚ) (es : String × StructuralState) : ℚ × ℚ :=
  if es.2.layer = layer then
    let similarity := sim es.1 layer
    (acc.1 + (1 - similarity) * es.2.activation,
     acc.2 + similarity * es.2.stability * 0.2)
  else acc

/-- `MeaningPressureProcessor.calculate_layer_meaning_pressure`.
Constants from the source: `beta = 0.1`, `alpha = 0.3`, `gamma = 0.4`. -/
def calculate_layer_meaning_pressure (sim : String → LayerType → ℚ)
    (obj_info : ObjectInfo) (layer : LayerType)
    (existing_structures : List (String × StructuralState)) : ℚ :=
  let phi := obj_info.meaning_values layer * obj_info.survival_relevance
  let rs := existing_structures.foldl (layer_rs_step sim layer) (0, 0)
  max 0 (phi * (1 + 0.3 * rs.2) - 0.1 * rs.1 + 0.4 * rs.2)

/-- `MeaningPressureProcessor.calculate_total_pressure`: sums the per-layer
pressures weighted by layer mobility, then feeds the total into
`add_meaning_pressure` (side effect on `E`).  Returns (total, new state). -/
def calculate_total_pressure (sim : String → LayerType → ℚ)
    (obj_info : ObjectInfo)
    (layer_structures : LayerType → List (String × StructuralState))
    (layer_mobility : LayerType → ℚ) (st : MeaningState) : ℚ × MeaningState :=
  let total_pressure := all_layers.foldl
    (fun acc layer =>
      acc + calculate_layer_meaning_pressure sim obj_info layer
              (layer_structures layer) * layer_mobility layer) 0
  (total_pressure, add_meaning_pressure st total_pressure obj_info.id)

/-- Resistance term of the specification, `R`: dissimilarity with existing
same-layer elements weighted by their activation. -/
def alignment_resistance_sum (sim : String → LayerType → ℚ) (layer : LayerType)
    (l : List (String × StructuralState)) : ℚ :=
  ((l.filter (fun es => decide (es.2.layer = layer))).map
    (fun es => (1 - sim es.1 layer) * es.2.activation)).sum

/-- Structural-interaction term of the specification, `S`: similarity times
stability (times the source's 0.2) over existing same-layer elements. -/
def structural_interaction_sum (sim : String → LayerType → ℚ) (layer : LayerType)
    (l : List (String × StructuralState)) : ℚ :=
  ((l.filter (fun es => decide (es.2.layer = layer))).map
    (fun es => sim es.1 layer * es.2.stability * 0.2)).sum

/-- The per-layer pressure formula exactly as claim C3 states it:
`P = φ·(1+α·S) − β·R + γ·S` with no clamping. -/
def claim_layer_pressure (sim : String → LayerType → ℚ) (obj_info : ObjectInfo)
    (layer : LayerType) (existing_structures : List (String × StructuralState)) : ℚ :=
  let phi := obj_info.meaning_values layer * obj_info.survival_relevance
  phi * (1 + 0.3 * structural_interaction_sum sim layer existing_structures)
    - 0.1 * alignment_resistance_sum sim layer existing_structures
    + 0.4 * structural_interaction_sum sim layer existing_structures

/-- The total pressure exactly as claim C3 states it: sum over the four layers
of the unclamped per-layer formula, weighted by mobility. -/
def claim_total_pressure (sim : String → LayerType → ℚ) (obj_info : ObjectInfo)
    (layer_structures : LayerType → List (String × StructuralState))
    (layer_mobility : LayerType → ℚ) : ℚ :=
  (all_layers.map (fun layer =>
    claim_layer_pressure sim obj_info layer (layer_structures layer)
      * layer_mobility layer)).sum

/-! ### AlignmentProcessor (src/ssd_alignment_leap.py) -/

/-- The global coherence-inertia table `global_kappa`
(a `defaultdict(lambda: 0.1)` keyed by element id). -/
abbrev KappaMap : Type := List (String × ℚ)

/-- Reading `global_kappa[element_id]`: a `defaultdict` read returns the
stored value, or inserts and returns the default 0.1 when the key is absent.
Returns (value, table after the read). -/
def defaultdict_get (gk : KappaMap) (element_id : String) : ℚ × KappaMap :=
  match lookupAssoc gk element_id with
  | some v => (v, gk)
  | none => (0.1, gk ++ [(element_id, 0.1)])

/-- `AlignmentProcessor._update_global_kappa`: multiply every entry by 0.995
and restore the 0.05 floor. -/
def update_global_kappa (gk : KappaMap) : KappaMap :=
  gk.map (fun p =>
    let v := p.2 * 0.995
    (p.1, if v < 0.05 then 0.05 else v))

/-- Output of `_process_layer_alignment`: the per-element alignment flows, the
elements with their updated activations, and the global inertia table after
the defaultdict reads. -/
structure LayerAlignOut where
  flows : List (String × ℚ)
  elements : List (String × StructuralState)
  gk : KappaMap

/-- The κ read of `_process_layer_alignment` for one element: the element's
own `kappa` entry when present, otherwise the global defaultdict read.
Returns (value, global table after the read). -/
def element_kappa (gk : KappaMap) (state : StructuralState)
    (element_id : String) : ℚ × KappaMap :=
  match lookupAssoc state.kappa element_id with
  | some v => (v, gk)
  | none => defaultdict_get gk element_id

/-- `AlignmentProcessor._process_layer_alignment`, one layer.  For each
element: `j = (G0 + g·κ)·p` with `G0 = 0.5`, `g = 0.7`,
`p = current_E · layer_mobility`; the activation is updated to
`min(1, activation + 0.1·j)`. -/
def process_layer_alignment (gk : KappaMap)
    (layer_elements : List (String × StructuralState))
    (current_E : ℚ) (mobility : ℚ) : LayerAlignOut :=
  match layer_elements with
  | [] => ⟨[], [], gk⟩
  | (element_id, state) :: rest =>
    let kv : ℚ × KappaMap := element_kappa gk state element_id
    let current_pressure := current_E * mobility
    let alignment_flow := (0.5 + 0.7 * kv.1) * current_pressure
    let state' := { state with
      activation := min 1 (state.activation + alignment_flow * 0.1) }
    let out := process_layer_alignment kv.2 rest current_E mobility
    ⟨(element_id, alignment_flow) :: out.flows,
     (element_id, state') :: out.elements, out.gk⟩

/-- Output of `process_alignment_step`. -/
structure AlignStepOut where
  flows : LayerType → List (String × ℚ)
  layers : LayerType → List (String × StructuralState)
  gk : KappaMap

/-- Loop iteration 1 of `process_alignment_step` (the PHYSICAL layer, first
in enum order). -/
def align_step1 (layers : LayerType → List (String × StructuralState))
    (current_E : ℚ) (layer_mobility : LayerType → ℚ) (gk : KappaMap) :
    LayerAlignOut :=
  process_layer_alignment gk (layers .PHYSICAL) current_E
    (layer_mobility .PHYSICAL)

/-- Loop iteration 2 of `process_alignment_step` (the BASE layer). -/
def align_step2 (layers : LayerType → List (String × StructuralState))
    (current_E : ℚ) (layer_mobility : LayerType → ℚ) (gk : KappaMap) :
    LayerAlignOut :=
  process_layer_alignment (align_step1 layers current_E layer_mobility gk).gk
    (layers .BASE) current_E (layer_mobility .BASE)

/-- Loop iteration 3 of `process_alignment_step` (the CORE layer). -/
def align_step3 (layers : LayerType → List (String × StructuralState))
    (current_E : ℚ) (layer_mobility : LayerType → ℚ) (gk : KappaMap) :
    LayerAlignOut :=
  process_layer_alignment (align_step2 layers current_E layer_mobility gk).gk
    (layers .CORE) current_E (layer_mobility .CORE)

/-- Loop iteration 4 of `process_alignment_step` (the UPPER layer). -/
def align_step4 (layers : LayerType → List (String × StructuralState))
    (current_E : ℚ) (layer_mobility : LayerType → ℚ) (gk : KappaMap) :
    LayerAlignOut :=
  process_layer_alignment (align_step3 layers current_E layer_mobility gk).gk
    (layers .UPPER) current_E (layer_mobility .UPPER)

/-- `AlignmentProcessor.process_alignment_step`: process the four layers in
enum order, threading the global inertia table, then run
`_update_global_kappa`.  A layer absent from the table behaves like an empty
layer (processing an empty dict is a no-op apart from recording an empty
flows entry). -/
def process_alignment_step
    (layers : LayerType → List (String × StructuralState))
    (current_E : ℚ) (layer_mobility : LayerType → ℚ) (gk : KappaMap) :
    AlignStepOut :=
  { flows := fun L => match L with
      | .PHYSICAL => (align_step1 layers current_E layer_mobility gk).flows
      | .BASE => (align_step2 layers current_E layer_mobility gk).flows
      | .CORE => (align_step3 layers current_E layer_mobility gk).flows
      | .UPPER => (align_step4 layers current_E layer_mobility gk).flows,
    layers := fun L => match L with
      | .PHYSICAL => (align_step1 layers current_E layer_mobility gk).elements
      | .BASE => (align_step2 layers current_E layer_mobility gk).elements
      | .CORE => (align_step3 layers current_E layer_mobility gk).elements
      | .UPPER => (align_step4 layers current_E layer_mobility gk).elements,
    gk := update_global_kappa
      (align_step4 layers current_E layer_mobility gk).gk }

/-- `layer_resistance` table of
`AlignmentProcessor.process_alignment_step_with_heat_loss`. -/
def layer_resistance : LayerType → ℚ
  | .PHYSICAL => 0.1
  | .BASE => 0.3
  | .CORE => 0.5
  | .UPPER => 0.2

/-- Inner loop of `process_alignment_step_with_heat_loss` over the elements of
one layer: `j = (G0 + 0.3·κ)·p` with `G0 = 0.2·mobility`,
`p = activation·(2 − stability)`, `κ = global_kappa.get(elem_id, 0.1)`
(a plain `.get`, which does not insert); accumulates work `p·j − ρ·j²`
per element and the heat `ρ·j²` into the running total. -/
def heat_loss_elements (rho G0 : ℚ) (gk : KappaMap) (layer : LayerType)
    (elements : List (String × StructuralState)) (heat : ℚ) :
    List ((LayerType × String) × ℚ) × ℚ :=
  match elements with
  | [] => ([], heat)
  | (elem_id, state) :: rest =>
    let kappa := (lookupAssoc gk elem_id).getD 0.1
    let pressure := state.activation * (2 - state.stability)
    let j := (G0 + 0.3 * kappa) * pressure
    let work := pressure * j - rho * j ^ 2
    let out := heat_loss_elements rho G0 gk layer rest (heat + rho * j ^ 2)
    (((layer, elem_id), work) :: out.1, out.2)

/-- `AlignmentProcessor.process_alignment_step_with_heat_loss`.  The layer
table is an association list (Python dict iteration order); the work dict keys
`f"{layer.name}_{elem_id}"` are modelled by the pair (layer, elem_id), which
is in bijection with those strings.  Returns (work dict, new total heat
loss). -/
def process_alignment_step_with_heat_loss
    (layers : List (LayerType × List (String × StructuralState)))
    (layer_mobility : LayerType → ℚ) (gk : KappaMap) (total_heat_loss : ℚ) :
    List ((LayerType × String) × ℚ) × ℚ :=
  match layers with
  | [] => ([], total_heat_loss)
  | (layer, elements) :: rest =>
    let rho := layer_resistance layer
    let G0 := 0.2 * layer_mobility layer
    let out := heat_loss_elements rho G0 gk layer elements total_heat_loss
    let outr := process_alignment_step_with_heat_loss rest layer_mobility gk out.2
    (out.1 ++ outr.1, outr.2)

/-- Sum of the values of the global inertia table
(`sum(self.global_kappa.values())`). -/
def sumKappaValues (gk : KappaMap) : ℚ := (gk.map (fun p => p.2)).sum

/-- Result record of `AlignmentProcessor.get_alignment_statistics`. -/
structure AlignmentStatistics where
  avg_inertia : ℚ
  total_heat_loss : ℚ
  active_elements : ℕ
  thermal_efficiency : ℚ
deriving DecidableEq

/-- `AlignmentProcessor.get_alignment_statistics`.  Note the source divides
the accumulated heat by `max(1, sum(global_kappa.values()))`. -/
def get_alignment_statistics (gk : KappaMap) (total_heat_loss : ℚ) :
    AlignmentStatistics :=
  { avg_inertia := if gk.length = 0 then 0 else sumKappaValues gk / gk.length,
    total_heat_loss := total_heat_loss,
    active_elements := gk.length,
    thermal_efficiency :=
      1 - min (total_heat_loss / max 1 (sumKappaValues gk)) 0.95 }

/-- The thermal efficiency exactly as claim C8 states it:
`1 − min(total_heat_loss / Σκ, 0.95)`, with the bare sum `Σκ` as the
denominator. -/
def claim_thermal_efficiency (gk : KappaMap) (total_heat_loss : ℚ) : ℚ :=
  1 - min (total_heat_loss / sumKappaValues gk) 0.95

/-- The `new_E` computation of `LeapProcessor.execute_leap`: after a leap the
unresolved pressure is reduced by the fraction
`0.3 + survival_urgency · 0.4`. -/
def execute_leap_new_E (current_E : ℚ) (survival_urgency : ℚ) : ℚ :=
  let pressure_reduction := 0.3 + survival_urgency * 0.4
  max 0 (current_E * (1 - pressure_reduction))

/-! ### LeapProcessor (src/ssd_alignment_leap.py), over ℝ because of `exp` -/

/-- Dynamic threshold of `LeapProcessor.check_leap_condition`:
`θ = θ_base·(1 + κ_mean + fluct·0.5)·max(0.2, 1 − α·S)` with `θ_base = 0.8`,
`α = 0.6`.  `fluct` stands for the draw `random.uniform(-σ_κ, σ_κ)`; the
source uses `[0.1]` in place of an empty κ-value list. -/
noncomputable def basic_leap_threshold (kappa_values : List ℝ)
    (survival_urgency : ℝ) (fluct : ℝ) : ℝ :=
  let vals := if kappa_values = [] then [(0.1 : ℝ)] else kappa_values
  let mean_kappa := vals.sum / vals.length
  let kappa_fluctuation := mean_kappa + fluct * 0.5
  let survival_modifier := 1 - 0.6 * survival_urgency
  0.8 * (1 + kappa_fluctuation) * max 0.2 survival_modifier

/-- The leap probability computed on the `current_E > threshold` path of
`check_leap_condition`: `raw = h0·exp((E−θ)/γ)·(1+β·S)` with `h0 = 0.1`,
`γ = 0.5`, `β = 2.5`, passed through `2/(1+exp(−raw)) − 1` and clamped to
`[0.05, 0.95]`. -/
noncomputable def check_leap_probability (current_E threshold survival_urgency : ℝ) :
    ℝ :=
  let raw_prob := 0.1 * Real.exp ((current_E - threshold) / 0.5)
                    * (1 + 2.5 * survival_urgency)
  let normalized_prob := 2 / (1 + Real.exp (-raw_prob)) - 1
  min (max normalized_prob 0.05) 0.95

/-- `LeapProcessor.check_leap_condition` as a predicate on the random draw:
the leap fires when `E` exceeds the dynamic threshold and the uniform draw
falls below the clamped probability. -/
noncomputable def check_leap_condition (current_E : ℝ) (kappa_values : List ℝ)
    (survival_urgency fluct draw : ℝ) : Prop :=
  let threshold := basic_leap_threshold kappa_values survival_urgency fluct
  current_E > threshold ∧
    draw < check_leap_probability current_E threshold survival_urgency

/-! ### ChaoticLeapProcessor (src/ssd_core_engine/ssd_enhanced_leap.py) -/

/-- The Lorenz attractor state of `ChaoticLeapProcessor`. -/
structure AttractorState where
  x : ℝ
  y : ℝ
  z : ℝ

/-- `ChaoticLeapProcessor._update_strange_attractor`: one Euler step of the
Lorenz system (`σ = 10`, `ρ = 28`, `β = 8/3`, `dt = 0.01`) plus the Gaussian
perturbation `pert` (modelled as an input). -/
noncomputable def update_strange_attractor (s : AttractorState)
    (pert : AttractorState) : AttractorState :=
  let dt := (0.01 : ℝ)
  let dx := 10 * (s.y - s.x) * dt
  let dy := (s.x * (28 - s.z) - s.y) * dt
  let dz := (s.x * s.y - 8 / 3 * s.z) * dt
  ⟨s.x + dx + pert.x, s.y + dy + pert.y, s.z + dz + pert.z⟩

/-- `ChaoticLeapProcessor._get_layer_leap_sensitivity`. -/
noncomputable def get_layer_leap_sensitivity : LayerType → ℝ
  | .PHYSICAL => 0.1
  | .BASE => 0.4
  | .CORE => 0.7
  | .UPPER => 0.9

/-- `ChaoticLeapProcessor.calculate_leap_probability`.  `s` is the attractor
state before the internal `_update_strange_attractor` call, `pert` its random
perturbation, and `u` the draw `random.uniform(0.3, 1.7)`.  Returns
(leap probability, unpredictability). -/
noncomputable def calculate_leap_probability (meaning_pressure : ℝ)
    (alignment_resistance : ℝ) (layer : LayerType)
    (s : AttractorState) (pert : AttractorState) (u : ℝ) : ℝ × ℝ :=
  if meaning_pressure > alignment_resistance * 1.2 then
    let s1 := update_strange_attractor s pert
    let chaos_x := meaning_pressure / 10
    let chaos_y := alignment_resistance / 10
    let nonlinear_coupling :=
      Real.sin (chaos_x * Real.pi) * Real.exp (-chaos_y) +
      Real.cos (chaos_y * Real.pi) * Real.tanh chaos_x +
      s1.x * s1.y * s1.z / 10
    let chaos_factor := |nonlinear_coupling| * get_layer_leap_sensitivity layer
    let leap_probability := min 1 (chaos_factor * u)
    let unpredictability := 1 - Real.exp (-(0.3 : ℝ) * chaos_factor)
    (leap_probability, unpredictability)
  else (0, 1)

/-! ### TwoStageReactionSystem (src/ssd_alignment_leap.py) -/

/-- A stimulus dictionary: the source reads each key with `.get` and these
defaults (`type` "abstract", `intensity` 0.5, `social_context` False,
`danger_level` 0, `value_alignment` 0.5, `long_term_benefit` 0.5). -/
structure Stimulus where
  type : String := "abstract"
  intensity : ℚ := 0.5
  social_context : Bool := false
  danger_level : ℚ := 0
  value_alignment : ℚ := 0.5
  long_term_benefit : ℚ := 0.5
deriving DecidableEq

/-- The `base_response_weights` table (default weight 0.3). -/
def base_response_weights (stimulus_type : String) : ℚ :=
  if stimulus_type = "threat" then 0.95
  else if stimulus_type = "food" then 0.8
  else if stimulus_type = "water" then 0.85
  else if stimulus_type = "shelter" then 0.7
  else if stimulus_type = "social" then 0.6
  else if stimulus_type = "tool" then 0.4
  else if stimulus_type = "abstract" then 0.2
  else 0.3

/-- Result dictionary of `_immediate_base_layer_response`. -/
structure ImmediateResponse where
  action : String
  strength : ℚ
  reaction_time : ℚ
  layer : String
  confidence : ℚ
  timestamp : ℚ
deriving DecidableEq

/-- `TwoStageReactionSystem._immediate_base_layer_response`:
strength = weight·intensity; a threat with strength above 0.7 yields flee
(intensity above 0.8) or freeze; food/water with strength above 0.6 yields
approach; anything else yields observe.  `unconscious_response_time = 0.05`. -/
def immediate_base_layer_response (stimulus : Stimulus) (current_time : ℚ) :
    ImmediateResponse :=
  let base_weight := base_response_weights stimulus.type
  let response_strength := base_weight * stimulus.intensity
  let action :=
    if stimulus.type = "threat" ∧ response_strength > 0.7 then
      (if stimulus.intensity > 0.8 then "flee" else "freeze")
    else if (stimulus.type = "food" ∨ stimulus.type = "water")
              ∧ response_strength > 0.6 then "approach"
    else "observe"
  { action := action, strength := response_strength, reaction_time := 0.05,
    layer := "BASE", confidence := base_weight, timestamp := current_time }

/-- An entry of the `pending_reactions` queue. -/
structure PendingReaction where
  stimulus : Stimulus
  unconscious : ImmediateResponse
  process_at : ℚ
  timestamp : ℚ
deriving DecidableEq

/-- `TwoStageReactionSystem.process_reaction`: run the immediate stage and
enqueue the stimulus for conscious reprocessing at `now + 0.35`; the queue is
a deque with maxlen 100 (appending to a full deque drops from the left). -/
def process_reaction (pending : List PendingReaction) (stimulus : Stimulus)
    (current_time : ℚ) : ImmediateResponse × List PendingReaction :=
  let unconscious := immediate_base_layer_response stimulus current_time
  let q := pending ++ [⟨stimulus, unconscious, current_time + 0.35, current_time⟩]
  (unconscious, if q.length > 100 then q.drop (q.length - 100) else q)

/-- Result dictionary of `_core_layer_adjustment`. -/
structure CoreAdjustment where
  action : String
  confidence : ℚ
  suppression_factor : ℚ
deriving DecidableEq

/-- `TwoStageReactionSystem._core_layer_adjustment`. -/
def core_layer_adjustment (stimulus : Stimulus)
    (unconscious : ImmediateResponse) : CoreAdjustment :=
  if unconscious.action = "flee" ∧ stimulus.social_context then
    ⟨"controlled_withdrawal", 0.8, 0.6⟩
  else if unconscious.action = "approach" ∧ stimulus.danger_level > 0.3 then
    ⟨"cautious_approach", 0.7, 0.4⟩
  else ⟨unconscious.action, 0.7, 0.1⟩

/-- Result dictionary of `_upper_layer_evaluation` (the `unconscious` argument
of the source is unused by its body). -/
structure UpperEvaluation where
  recommendation : String
  value_score : ℚ
  long_term_score : ℚ
  confidence : ℚ
deriving DecidableEq

/-- `TwoStageReactionSystem._upper_layer_evaluation`. -/
def upper_layer_evaluation (stimulus : Stimulus) : UpperEvaluation :=
  let value_alignment := stimulus.value_alignment
  let long_term_benefit := stimulus.long_term_benefit
  let recommendation :=
    if value_alignment > 0.8 then "enhance"
    else if value_alignment < 0.3 then "suppress"
    else "neutral"
  ⟨recommendation, value_alignment, long_term_benefit,
   (value_alignment + long_term_benefit) / 2⟩

/-- `TwoStageReactionSystem._integrate_multi_layer_response`. -/
def integrate_multi_layer_response (unconscious : ImmediateResponse)
    (core : CoreAdjustment) (upper : UpperEvaluation) : String :=
  let upper_modifier : ℚ :=
    if upper.recommendation = "enhance" then 1
    else if upper.recommendation = "suppress" then 0.5
    else 0.8
  let final_strength := unconscious.strength * (1 - core.suppression_factor)
                          * upper_modifier
  if final_strength > 0.7 then unconscious.action
  else if final_strength > 0.4 then core.action
  else "deliberate"

/-- Result dictionary of `_conscious_reprocessing`. -/
structure ConsciousResponse where
  final_action : String
  unconscious_response : ImmediateResponse
  core_adjustment : CoreAdjustment
  upper_evaluation : UpperEvaluation
  processing_time : ℚ
  integration_confidence : ℚ
deriving DecidableEq

/-- `TwoStageReactionSystem._conscious_reprocessing` (the `layers` argument of
the source is not used by its body; `conscious_processing_time = 0.35`). -/
def conscious_reprocessing (stimulus : Stimulus)
    (unconscious : ImmediateResponse)
    (_layers : LayerType → List (String × StructuralState)) :
    ConsciousResponse :=
  let core := core_layer_adjustment stimulus unconscious
  let upper := upper_layer_evaluation stimulus
  { final_action := integrate_multi_layer_response unconscious core upper,
    unconscious_response := unconscious,
    core_adjustment := core,
    upper_evaluation := upper,
    processing_time := 0.35,
    integration_confidence := (core.confidence + upper.confidence) / 2 }

/-- `TwoStageReactionSystem.process_conscious_reactions`: pop every pending
reaction, reprocess the ones whose scheduled time has elapsed (in queue
order), keep the rest (in queue order).  Returns (processed, new queue). -/
def process_conscious_reactions (pending : List PendingReaction)
    (current_time : ℚ)
    (layers : LayerType → List (String × StructuralState)) :
    List ConsciousResponse × List PendingReaction :=
  ((pending.filter (fun r => decide (current_time ≥ r.process_at))).map
     (fun r => conscious_reprocessing r.stimulus r.unconscious layers),
   pending.filter (fun r => decide (¬ current_time ≥ r.process_at)))

/-! ### DecisionSystem (src/ssd_decision.py) -/

/-- `DecisionInfo` from ssd_types.py.  Python builds `scores` as a dict in
candidate order; duplicate candidate strings collapse to one key there, with
the identical score, since the score is a function of the action string. -/
structure DecisionInfo where
  chosen_action : String
  scores : List (String × ℚ) := []
  exploration_mode : Bool := false
  E_level : ℚ := 0
  T_level : ℚ := 0
deriving DecidableEq

/-- Mutable state of `DecisionSystem`: the exploration temperature and the
decision history (a deque with maxlen 100; the `timestamp` of an entry is the
index at insertion). -/
structure DecisionSystem where
  T : ℚ := 1
  decision_history : List (String × DecisionInfo) := []
deriving DecidableEq

/-- The `survival_actions` table of `DecisionSystem._evaluate_action`
(default 0.2). -/
def survival_actions (action : String) : ℚ :=
  if action = "eat" then 1
  else if action = "drink" then 1
  else if action = "seek_shelter" then 0.9
  else if action = "craft" then 0.7
  else if action = "gather" then 0.6
  else if action = "explore" then 0.4
  else if action = "rest" then 0.5
  else if action = "store" then 0.5
  else if action = "observe" then 0.3
  else if action = "approach" then 0.4
  else if action = "avoid" then 0.6
  else if action = "investigate" then 0.3
  else if action = "use" then 0.5
  else 0.2

/-- Mean activation of a layer's elements (`np.mean`, guarded by the source to
0 for an empty layer). -/
def mean_activation (elements : List (String × StructuralState)) : ℚ :=
  if elements.length = 0 then 0
  else ((elements.map (fun p => p.2.activation)).sum) / elements.length

/-- `DecisionSystem._evaluate_action`: base 0.5, plus
`global_kappa.get(action, 0.1)·0.4`, plus the survival bonus, plus the
per-layer evaluation, capped at 2. -/
def evaluate_action (action : String)
    (layers : LayerType → List (String × StructuralState))
    (global_kappa : KappaMap)
    (perceived_objects : List (String × ObjectInfo))
    (layer_mobility : LayerType → ℚ) : ℚ :=
  let base_score := (0.5 : ℚ)
  let kappa_bonus := ((lookupAssoc global_kappa action).getD 0.1) * 0.4
  let action_survival_value := survival_actions action
  let current_survival_need : ℚ :=
    if perceived_objects.length = 0 then 0
    else ((perceived_objects.filter
            (fun p => decide (p.2.survival_relevance > 0.7))).length : ℚ)
           / perceived_objects.length
  let survival_bonus := action_survival_value * current_survival_need * 0.8
  let layer_evaluation := all_layers.foldl
    (fun acc layer =>
      let layer_activation := mean_activation (layers layer)
      let enhanced_weight := layer_mobility layer
        * (1 + layer.get_survival_weight * current_survival_need)
      acc + layer_activation * enhanced_weight * 0.2) 0
  min (base_score + kappa_bonus + survival_bonus + layer_evaluation) 2

/-- Python's `max(iterable, key=f)`: scan left to right, replace the current
best only on a strictly greater key, so the first maximal element wins. -/
def pyMaxKey (f : String → ℚ) (a : String) (rest : List String) : String :=
  rest.foldl (fun best x => if f x > f best then x else best) a

/-- `random.choice(actions)` with the uniform index draw made explicit. -/
def pyChoice (actions : List String) (choice_index : ℕ) : String :=
  actions.getD (choice_index % actions.length) ""

/-- `DecisionSystem.make_decision`.  `explore_draw` is the `random.random()`
draw deciding exploration; `choice_index` the `random.choice` index draw.
Returns (chosen action or None, DecisionInfo, new system state). -/
def make_decision (sys : DecisionSystem) (available_actions : List String)
    (layers : LayerType → List (String × StructuralState))
    (global_kappa : KappaMap)
    (perceived_objects : List (String × ObjectInfo)) (current_E : ℚ)
    (layer_mobility : LayerType → ℚ) (explore_draw : ℚ) (choice_index : ℕ) :
    Option String × DecisionInfo × DecisionSystem :=
  match available_actions with
  | [] => (none, { chosen_action := "", scores := [] }, sys)
  | a :: rest =>
    let score := fun action =>
      evaluate_action action layers global_kappa perceived_objects
        layer_mobility
    let action_scores := (a :: rest).map (fun x => (x, score x))
    let exploration_mode := explore_draw < sys.T * 0.5
    let chosen_action :=
      if exploration_mode then pyChoice (a :: rest) choice_index
      else pyMaxKey score a rest
    let decision_info : DecisionInfo :=
      { chosen_action := chosen_action, scores := action_scores,
        exploration_mode := exploration_mode, E_level := current_E,
        T_level := sys.T }
    let history := sys.decision_history ++ [(chosen_action, decision_info)]
    (some chosen_action, decision_info,
     { sys with decision_history :=
        if history.length > 100 then history.drop (history.length - 100)
        else history })

/-- `DecisionSystem.update_temperature`: `T = 0.3 + min(1, E/5)·0.7`. -/
def update_temperature (sys : DecisionSystem) (current_E : ℚ) : DecisionSystem :=
  { sys with T := 0.3 + min 1 (current_E / 5) * 0.7 }

/-! ### PredictionSystem (src/ssd_core_engine/ssd_prediction.py) -/

/-- `PredictionResult` from ssd_types.py. -/
structure PredictionResult where
  object_id : String
  current_value : ℚ
  predictions : List ℚ := []
  crisis_level : String := "none"
  confidence : ℚ := 0
  trend_modifier : ℚ := 1
  steps_ahead : ℕ := 0
  timestamp : ℤ := 0
deriving DecidableEq

/-- Cache keys: the source key `f"{target_object_id}_{steps_ahead}"` is in
bijection with the pair (object id, steps), since the digits after the last
underscore determine `steps_ahead`. -/
abbrev CacheKey : Type := String × ℕ

/-- The prediction cache, an association list in dict insertion order. -/
abbrev Cache : Type := List (CacheKey × PredictionResult)

/-- Mutable state of `PredictionSystem`. -/
structure PredictionSystem where
  prediction_horizon : ℕ := 3
  prediction_accuracy : ℚ := 0.8
  trend_memory : List (List (String × ℚ)) := []
  prediction_cache : Cache := []

/-- Dictionary lookup in the prediction cache. -/
def cacheLookup (c : Cache) (k : CacheKey) : Option PredictionResult :=
  (c.find? (fun p => decide (p.1 = k))).map (fun p => p.2)

/-- Dictionary insertion `cache[key] = result`: overwrite in place when the
key exists, else append (CPython dict order). -/
def cacheInsert (c : Cache) (k : CacheKey) (v : PredictionResult) : Cache :=
  if c.any (fun p => decide (p.1 = k)) then
    c.map (fun p => if p.1 = k then (k, v) else p)
  else c ++ [(k, v)]

/-- The entries that survive the expiry pass of
`_cleanup_prediction_cache`: those at most 10 ticks old. -/
def cacheFresh (c : Cache) (current_time : ℤ) : Cache :=
  c.filter (fun p => decide (current_time - p.2.timestamp ≤ 10))

/-- Sort order used by `_cleanup_prediction_cache` (ascending timestamp). -/
def byTimestamp (a b : CacheKey × PredictionResult) : Bool :=
  decide (a.2.timestamp ≤ b.2.timestamp)

/-- `PredictionSystem._cleanup_prediction_cache`: delete every entry more than
10 ticks old; if more than 50 entries remain, delete (by key) the oldest half
of the sorted remainder. -/
def cleanup_prediction_cache (c : Cache) (current_time : ℤ) : Cache :=
  let fresh := cacheFresh c current_time
  if 50 < fresh.length then
    let victims := (fresh.mergeSort byTimestamp).take (fresh.length / 2)
    fresh.filter (fun p => decide (p.1 ∉ victims.map (fun q => q.1)))
  else fresh

/-- `PredictionSystem._calculate_trend_modifier`: mean of the last (up to 3)
recorded deltas for the object, mapped through `1 + trend·0.3` and clamped to
`[0.5, 2]`; 1 when fewer than 3 memory entries or fewer than 2 deltas. -/
def calculate_trend_modifier (sys : PredictionSystem) (object_id : String) : ℚ :=
  if sys.trend_memory.length < 3 then 1
  else
    let recent_changes :=
      (sys.trend_memory.drop (sys.trend_memory.length - 3)).filterMap
        (fun memory => lookupAssoc memory object_id)
    if 2 ≤ recent_changes.length then
      let change_trend := recent_changes.sum / recent_changes.length
      max 0.5 (min 2 (1 + change_trend * 0.3))
    else 1

/-- The per-type crisis thresholds of `_assess_crisis_level`, as the triple
(critical, severe, moderate); default (20, 40, 60). -/
def crisis_thresholds (object_type : String) : ℚ × ℚ × ℚ :=
  if object_type = "health" then (20, 40, 60)
  else if object_type = "water" then (10, 30, 50)
  else if object_type = "food" then (15, 35, 55)
  else if object_type = "energy" then (25, 45, 65)
  else if object_type = "danger" then (80, 60, 40)
  else if object_type = "threat" then (80, 60, 40)
  else (20, 40, 60)

/-- `PredictionSystem._assess_crisis_level`: classify by the minimum forecast
value against the per-type thresholds. -/
def assess_crisis_level (predictions : List ℚ) (object_type : String) : String :=
  match predictions.min? with
  | none => "none"
  | some min_pred =>
    let th := crisis_thresholds object_type
    if min_pred ≤ th.1 then "critical"
    else if min_pred ≤ th.2.1 then "severe"
    else if min_pred ≤ th.2.2 then "moderate"
    else "none"

/-- `PredictionSystem._calculate_prediction_confidence`:
`accuracy · 0.9^steps · (1 − volatility·0.5)`, clamped to `[0.1, 1]`. -/
def calculate_prediction_confidence (accuracy : ℚ) (obj : ObjectInfo)
    (steps_ahead : ℕ) : ℚ :=
  max 0.1 (min 1 (accuracy * (0.9 : ℚ) ^ steps_ahead
    * (1 - obj.volatility * 0.5)))

/-- `PredictionSystem.predict_future_state`.  `noise step` stands for the
draw `random.uniform(-volatility, volatility)` of forecast step `step`.
The `steps_ahead = None → prediction_horizon` defaulting of the source is
resolved by the caller.  Returns (result, new system state). -/
def predict_future_state (sys : PredictionSystem) (target_object_id : String)
    (perceived_objects : List (String × ObjectInfo)) (steps_ahead : ℕ)
    (current_time : ℤ) (noise : ℕ → ℚ) :
    PredictionResult × PredictionSystem :=
  let cache_key : CacheKey := (target_object_id, steps_ahead)
  let hit : Option PredictionResult :=
    match cacheLookup sys.prediction_cache cache_key with
    | some cached =>
      if current_time - cached.timestamp < 5 then some cached else none
    | none => none
  match hit with
  | some cached => (cached, sys)
  | none =>
    match lookupAssoc perceived_objects target_object_id with
    | none =>
      ({ object_id := target_object_id, current_value := 0,
         predictions := [], crisis_level := "none", confidence := 0,
         timestamp := current_time }, sys)
    | some target_obj =>
      let current_value := target_obj.current_value
      let trend_modifier := calculate_trend_modifier sys target_object_id
      let adjusted_decline_rate := target_obj.decline_rate * trend_modifier
      let predictions := (List.range steps_ahead).map (fun i =>
        let step : ℕ := i + 1
        let predicted_base := current_value
          - adjusted_decline_rate * (step : ℚ)
        let random_factor := noise step * (1 - sys.prediction_accuracy)
        max 0 (predicted_base + random_factor))
      let crisis_level := assess_crisis_level predictions target_obj.type
      let confidence := calculate_prediction_confidence
        sys.prediction_accuracy target_obj steps_ahead
      let result : PredictionResult :=
        { object_id := target_object_id, current_value := current_value,
          predictions := predictions, crisis_level := crisis_level,
          confidence := confidence, trend_modifier := trend_modifier,
          steps_ahead := steps_ahead, timestamp := current_time }
      let cache :=
        if sys.prediction_cache.length < 100 then
          cacheInsert sys.prediction_cache cache_key result
        else
          cacheInsert (cleanup_prediction_cache sys.prediction_cache
            current_time) cache_key result
      (result, { sys with prediction_cache := cache })

/-- Arguments of one `predict_future_state` call. -/
structure PredictCall where
  target_object_id : String
  perceived_objects : List (String × ObjectInfo)
  steps_ahead : ℕ
  current_time : ℤ
  noise : ℕ → ℚ

/-- A sequence of `predict_future_state` calls, threading the system state. -/
def run_predictions (sys : PredictionSystem) (calls : List PredictCall) :
    PredictionSystem :=
  calls.foldl (fun s c =>
    (predict_future_state s c.target_object_id c.perceived_objects
      c.steps_ahead c.current_time c.noise).2) sys

/-- Keys of the prediction cache are pairwise distinct (true of any Python
dict; an invariant of the embedding's insert/delete operations). -/
abbrev CacheKeysNodup (c : Cache) : Prop := (c.map (fun p => p.1)).Nodup

/-! ### Concrete instances used by witnesses and counterexamples -/

/-- The stimulus of spec Scenario B: type "threat", intensity 0.9,
social_context false, danger_level 0.8. -/
def exThreat : Stimulus :=
  { type := "threat", intensity := 0.9, social_context := false,
    danger_level := 0.8 }

/-- A concrete perceived entity used by witnesses. -/
def exObj : ObjectInfo :=
  { id := "obj1", type := "water", current_value := 20, decline_rate := 3,
    volatility := 0, survival_relevance := 1, meaning_values := fun _ => 0.5 }

/-- A concrete structural element used by witnesses (fully activated, fully
unstable). -/
def exState : StructuralState :=
  { layer := .PHYSICAL, connections := [], activation := 1, stability := 0,
    kappa := [] }

/-- A concrete one-element layer table used by witnesses. -/
def exLayers : LayerType → List (String × StructuralState)
  | .PHYSICAL => [("e1", exState)]
  | _ => []

/-- C3 counterexample entity: zero meaning values in every layer. -/
def cexObj : ObjectInfo :=
  { id := "c1", type := "x", survival_relevance := 1,
    meaning_values := fun _ => 0 }

/-- C3 counterexample structures: one fully activated BASE element. -/
def cexStructures : LayerType → List (String × StructuralState)
  | .BASE => [("b1", { layer := .BASE, connections := [], activation := 1,
                       stability := 0, kappa := [] })]
  | _ => []

/-- The global inertia table after one flow-mode alignment step on
`exLayers` (the engine runs the flow step before the heat-loss step each
tick): the defaultdict read inserts κ = 0.1 for "e1" and the end-of-step
update decays it to 0.0995. -/
def cexGk : KappaMap :=
  (process_alignment_step exLayers 0 engine_layer_mobility []).gk

/-- The accumulated heat after one heat-loss step on the aligned layer table
with the inertia table `cexGk`. -/
def cexHeat : ℚ :=
  (process_alignment_step_with_heat_loss
    [(LayerType.PHYSICAL,
      (process_alignment_step exLayers 0 engine_layer_mobility []).layers
        LayerType.PHYSICAL)]
    engine_layer_mobility cexGk 0).2

/-- A stale cache entry used by the C4 witness. -/
def c4Entry : CacheKey × PredictionResult :=
  (("a", 3), { object_id := "a", current_value := 1, timestamp := 0 })

/-- A 51-entry cache (distinct keys, all fresh at time 0) used by the C4
witness to exercise the oldest-half removal. -/
def c4Cache : Cache :=
  (List.range 51).map (fun i =>
    (("k" ++ toString i, 3),
     { object_id := "k", current_value := 0, timestamp := (i : ℤ) }))

/-- The object cached by the first call of the C6 counterexample. -/
def c6Obj : ObjectInfo :=
  { id := "o", type := "energy", current_value := 7, decline_rate := 1,
    volatility := 0, survival_relevance := 0, meaning_values := fun _ => 0 }

/-- The (non-neutral) result the first call computes and caches: horizon 0,
so no forecast steps, crisis "none", confidence
max(0.1, min(1, 0.8·0.9⁰·1)) = 0.8. -/
def c6Res : PredictionResult :=
  { object_id := "o", current_value := 7, predictions := [],
    crisis_level := "none", confidence := 0.8, trend_modifier := 1,
    steps_ahead := 0, timestamp := 0 }

/-- The prediction system state after the first call (object present). -/
def c6Sys1 : PredictionSystem :=
  (predict_future_state {} "o" [("o", c6Obj)] 0 0 (fun _ => 0)).2

/-! ### Invariant predicates and helper lemmas -/

/-- The activation invariant of a structural element. -/
abbrev ActivationInv (st : StructuralState) : Prop :=
  0 ≤ st.activation ∧ st.activation ≤ 1

/-- All entries of an inertia table are nonnegative. -/
abbrev KappaNonneg (gk : KappaMap) : Prop := ∀ p ∈ gk, 0 ≤ p.2

lemma lookupAssoc_nonneg {gk : KappaMap} {k : String} {v : ℚ}
    (h : KappaNonneg gk) (hl : lookupAssoc gk k = some v) : 0 ≤ v := by
  unfold lookupAssoc at hl
  cases hf : gk.find? (fun p => decide (p.1 = k)) with
  | none => rw [hf] at hl; simp at hl
  | some p =>
    rw [hf] at hl
    simp at hl
    subst hl
    exact h p (List.mem_of_find?_eq_some hf)

lemma defaultdict_get_nonneg (gk : KappaMap) (k : String)
    (h : KappaNonneg gk) :
    0 ≤ (defaultdict_get gk k).1 ∧ KappaNonneg (defaultdict_get gk k).2 := by
  unfold defaultdict_get
  cases hl : lookupAssoc gk k with
  | some v => exact ⟨lookupAssoc_nonneg h hl, h⟩
  | none =>
    refine ⟨by norm_num, fun p hp => ?_⟩
    rcases List.mem_append.mp hp with h1 | h2
    · exact h p h1
    · simp only [List.mem_singleton] at h2
      subst h2
      norm_num

lemma process_layer_alignment_nil (gk : KappaMap) (current_E mobility : ℚ) :
    process_layer_alignment gk [] current_E mobility = ⟨[], [], gk⟩ := rfl

lemma process_layer_alignment_cons (gk : KappaMap) (eid : String)
    (st : StructuralState) (tl : List (String × StructuralState))
    (current_E mobility : ℚ) :
    process_layer_alignment gk ((eid, st) :: tl) current_E mobility =
      ⟨(eid, (0.5 + 0.7 * (element_kappa gk st eid).1) * (current_E * mobility))
          :: (process_layer_alignment (element_kappa gk st eid).2 tl current_E
              mobility).flows,
       (eid, { st with activation := min 1 (st.activation
          + (0.5 + 0.7 * (element_kappa gk st eid).1) * (current_E * mobility)
            * 0.1) })
          :: (process_layer_alignment (element_kappa gk st eid).2 tl current_E
              mobility).elements,
       (process_layer_alignment (element_kappa gk st eid).2 tl current_E
         mobility).gk⟩ := rfl

lemma element_kappa_nonneg (gk : KappaMap) (st : StructuralState) (eid : String)
    (hgk : KappaNonneg gk) (hst : KappaNonneg st.kappa) :
    0 ≤ (element_kappa gk st eid).1 ∧ KappaNonneg (element_kappa gk st eid).2 := by
  unfold element_kappa
  cases hl : lookupAssoc st.kappa eid with
  | some v => exact ⟨lookupAssoc_nonneg hst hl, hgk⟩
  | none => exact defaultdict_get_nonneg gk eid hgk

lemma process_layer_alignment_inv (current_E mobility : ℚ)
    (hE : 0 ≤ current_E) (hm : 0 ≤ mobility) :
    ∀ (elems : List (String × StructuralState)) (gk : KappaMap),
      KappaNonneg gk →
      (∀ p ∈ elems, ActivationInv p.2 ∧ KappaNonneg p.2.kappa) →
      KappaNonneg (process_layer_alignment gk elems current_E mobility).gk ∧
      ∀ p ∈ (process_layer_alignment gk elems current_E mobility).elements,
        ActivationInv p.2 := by
  intro elems
  induction elems with
  | nil =>
    intro gk hgk _
    rw [process_layer_alignment_nil]
    exact ⟨hgk, by simp⟩
  | cons hd tl ih =>
    intro gk hgk helems
    obtain ⟨eid, st⟩ := hd
    have hst := helems (eid, st) (by simp)
    have hkv := element_kappa_nonneg gk st eid hgk hst.2
    have hrec := ih _ hkv.2 (fun p hp => helems p (List.mem_cons_of_mem _ hp))
    have hflow : 0 ≤ (0.5 + 0.7 * (element_kappa gk st eid).1)
        * (current_E * mobility) := by
      have h1 := hkv.1
      have h2 : (0:ℚ) ≤ 0.5 + 0.7 * (element_kappa gk st eid).1 := by linarith
      exact mul_nonneg h2 (mul_nonneg hE hm)
    rw [process_layer_alignment_cons]
    refine ⟨hrec.1, ?_⟩
    intro p hp
    simp only [List.mem_cons] at hp
    rcases hp with hp | hp
    · subst hp
      have hact := hst.1.1
      constructor
      · show (0:ℚ) ≤ min 1 (st.activation + _)
        exact le_min (by norm_num) (by linarith)
      · show min (1:ℚ) (st.activation + _) ≤ 1
        exact min_le_left _ _
    · exact hrec.2 p hp

lemma process_alignment_step_inv
    (layers : LayerType → List (String × StructuralState)) (current_E : ℚ)
    (layer_mobility : LayerType → ℚ) (gk : KappaMap)
    (hE : 0 ≤ current_E) (hm : ∀ L, 0 ≤ layer_mobility L)
    (hgk : KappaNonneg gk)
    (hl : ∀ L, ∀ p ∈ layers L, ActivationInv p.2 ∧ KappaNonneg p.2.kappa) :
    ∀ L, ∀ p ∈ (process_alignment_step layers current_E layer_mobility gk).layers L,
      ActivationInv p.2 := by
  have h1 := process_layer_alignment_inv current_E (layer_mobility .PHYSICAL)
    hE (hm _) (layers .PHYSICAL) gk hgk (hl _)
  have h2 := process_layer_alignment_inv current_E (layer_mobility .BASE)
    hE (hm _) (layers .BASE) _ h1.1 (hl _)
  have h3 := process_layer_alignment_inv current_E (layer_mobility .CORE)
    hE (hm _) (layers .CORE) _ h2.1 (hl _)
  have h4 := process_layer_alignment_inv current_E (layer_mobility .UPPER)
    hE (hm _) (layers .UPPER) _ h3.1 (hl _)
  intro L p hp
  cases L
  · exact h1.2 p hp
  · exact h2.2 p hp
  · exact h3.2 p hp
  · exact h4.2 p hp

lemma calculate_layer_meaning_pressure_nonneg (sim : String → LayerType → ℚ)
    (obj_info : ObjectInfo) (layer : LayerType)
    (existing : List (String × StructuralState)) :
    0 ≤ calculate_layer_meaning_pressure sim obj_info layer existing := by
  unfold calculate_layer_meaning_pressure
  exact le_max_left _ _

lemma calculate_total_pressure_fst (sim : String → LayerType → ℚ)
    (obj_info : ObjectInfo)
    (layer_structures : LayerType → List (String × StructuralState))
    (layer_mobility : LayerType → ℚ) (st : MeaningState) :
    (calculate_total_pressure sim obj_info layer_structures
        layer_mobility st).1
      = all_layers.foldl (fun acc layer =>
          acc + calculate_layer_meaning_pressure sim obj_info layer
            (layer_structures layer) * layer_mobility layer) 0 := rfl

lemma calculate_total_pressure_nonneg (sim : String → LayerType → ℚ)
    (obj_info : ObjectInfo)
    (layer_structures : LayerType → List (String × StructuralState))
    (layer_mobility : LayerType → ℚ) (st : MeaningState)
    (hm : ∀ L, 0 ≤ layer_mobility L) :
    0 ≤ (calculate_total_pressure sim obj_info layer_structures
      layer_mobility st).1 := by
  have h := fun L => mul_nonneg
    (calculate_layer_meaning_pressure_nonneg sim obj_info L
      (layer_structures L)) (hm L)
  rw [calculate_total_pressure_fst]
  simp only [all_layers, List.foldl]
  linarith [h LayerType.PHYSICAL, h LayerType.BASE, h LayerType.CORE,
    h LayerType.UPPER]

/-! ### Theorems -/

/-- C1: the engine-state operations preserve the invariant set.
Pressure addition (`add_meaning_pressure`, also via
`calculate_total_pressure`) keeps `E` in [0,10] by clamping at 10; natural
decay keeps `E` in [0,10] by clamping at 0; every entry of the global inertia
table is at least 0.05 after `_update_global_kappa`; every element activation
is in [0,1] after an alignment step; the post-leap pressure reduction of
`execute_leap` also keeps `E` in [0,10]. -/
theorem C1_engine_invariants :
    (∀ (st : MeaningState) (p : ℚ) (src : String),
      0 ≤ st.E → st.E ≤ 10 → 0 ≤ p →
      0 ≤ (add_meaning_pressure st p src).E
        ∧ (add_meaning_pressure st p src).E ≤ 10)
    ∧ (∀ (sim : String → LayerType → ℚ) (obj : ObjectInfo)
        (lss : LayerType → List (String × StructuralState))
        (mob : LayerType → ℚ) (st : MeaningState),
        (∀ L, 0 ≤ mob L) → 0 ≤ st.E → st.E ≤ 10 →
        0 ≤ (calculate_total_pressure sim obj lss mob st).2.E
          ∧ (calculate_total_pressure sim obj lss mob st).2.E ≤ 10)
    ∧ (∀ (st : MeaningState) (r : ℚ),
        0 ≤ st.E → st.E ≤ 10 → 0 ≤ r → r ≤ 1 →
        0 ≤ (natural_decay st r).E ∧ (natural_decay st r).E ≤ 10)
    ∧ (∀ (gk : KappaMap), ∀ p ∈ update_global_kappa gk, 0.05 ≤ p.2)
    ∧ (∀ (layers : LayerType → List (String × StructuralState))
        (current_E : ℚ) (mob : LayerType → ℚ) (gk : KappaMap),
        0 ≤ current_E → (∀ L, 0 ≤ mob L) → KappaNonneg gk →
        (∀ L, ∀ p ∈ layers L, ActivationInv p.2 ∧ KappaNonneg p.2.kappa) →
        ∀ L, ∀ p ∈ (process_alignment_step layers current_E mob gk).layers L,
          ActivationInv p.2)
    ∧ (∀ (current_E survival_urgency : ℚ),
        0 ≤ current_E → current_E ≤ 10 →
        0 ≤ survival_urgency → survival_urgency ≤ 1 →
        0 ≤ execute_leap_new_E current_E survival_urgency
          ∧ execute_leap_new_E current_E survival_urgency ≤ 10) := by
  refine ⟨?_, ?_, ?_, ?_, ?_, ?_⟩
  · intro st p src hE0 _ hp
    unfold add_meaning_pressure
    constructor
    · exact le_min (by norm_num) (by nlinarith)
    · exact min_le_left _ _
  · intro sim obj lss mob st hm hE0 hE10
    have htot := calculate_total_pressure_nonneg sim obj lss mob st hm
    have heq : (calculate_total_pressure sim obj lss mob st).2
        = add_meaning_pressure st
            (calculate_total_pressure sim obj lss mob st).1 obj.id := rfl
    rw [heq]
    unfold add_meaning_pressure
    constructor
    · exact le_min (by norm_num) (by nlinarith)
    · exact min_le_left _ _
  · intro st r hE0 hE10 hr0 hr1
    unfold natural_decay
    constructor
    · exact le_max_left _ _
    · have : st.E * r ≤ 10 := by nlinarith
      exact max_le (by norm_num) this
  · intro gk p hp
    unfold update_global_kappa at hp
    obtain ⟨q, _, hq⟩ := List.mem_map.mp hp
    have : p.2 = if q.2 * 0.995 < 0.05 then 0.05 else q.2 * 0.995 := by
      rw [← hq]
    rw [this]
    by_cases h : q.2 * 0.995 < 0.05
    · rw [if_pos h]
    · rw [if_neg h]
      linarith [not_lt.mp h]
  · intro layers current_E mob gk hE hm hgk hl
    exact process_alignment_step_inv layers current_E mob gk hE hm hgk hl
  · intro current_E s hE0 hE10 hs0 hs1
    unfold execute_leap_new_E
    constructor
    · exact le_max_left _ _
    · have : current_E * (1 - (0.3 + s * 0.4)) ≤ 10 := by nlinarith
      exact max_le (by norm_num) this

lemma exLayers_hyp : ∀ L, ∀ p ∈ exLayers L,
    ActivationInv p.2 ∧ KappaNonneg p.2.kappa := by
  intro L p hp
  cases L <;>
    simp only [exLayers, List.mem_singleton, List.not_mem_nil] at hp
  subst hp
  exact ⟨⟨by norm_num [exState], by norm_num [exState]⟩, by simp [exState]⟩

lemma exLayers_aligned :
    (process_alignment_step exLayers 0 engine_layer_mobility []).layers
      LayerType.PHYSICAL = [("e1", exState)] := by
  norm_num [process_alignment_step, align_step1, exLayers,
    process_layer_alignment_cons, process_layer_alignment_nil, element_kappa,
    lookupAssoc, defaultdict_get, exState, engine_layer_mobility]

/-- Witness for C1: all six conjuncts applied at concrete inputs. -/
theorem C1_engine_invariants_witness :
    (0 ≤ (add_meaning_pressure ⟨1, []⟩ 2 "s").E
      ∧ (add_meaning_pressure ⟨1, []⟩ 2 "s").E ≤ 10)
    ∧ (0 ≤ (calculate_total_pressure (fun _ _ => 0.5) exObj (fun _ => [])
            engine_layer_mobility ⟨1, []⟩).2.E
      ∧ (calculate_total_pressure (fun _ _ => 0.5) exObj (fun _ => [])
            engine_layer_mobility ⟨1, []⟩).2.E ≤ 10)
    ∧ (0 ≤ (natural_decay ⟨1, []⟩ 0.95).E ∧ (natural_decay ⟨1, []⟩ 0.95).E ≤ 10)
    ∧ 0.05 ≤ (("a", (0.995 : ℚ)) : String × ℚ).2
    ∧ ActivationInv (("e1", exState) : String × StructuralState).2
    ∧ (0 ≤ execute_leap_new_E 5 0.5 ∧ execute_leap_new_E 5 0.5 ≤ 10) := by
  refine ⟨?_, ?_, ?_, ?_, ?_, ?_⟩
  · exact C1_engine_invariants.1 ⟨1, []⟩ 2 "s" (by norm_num) (by norm_num)
      (by norm_num)
  · exact C1_engine_invariants.2.1 (fun _ _ => 0.5) exObj (fun _ => [])
      engine_layer_mobility ⟨1, []⟩
      (by intro L; cases L <;> norm_num [engine_layer_mobility])
      (by norm_num) (by norm_num)
  · exact C1_engine_invariants.2.2.1 ⟨1, []⟩ 0.95 (by norm_num) (by norm_num)
      (by norm_num) (by norm_num)
  · exact C1_engine_invariants.2.2.2.1 [("a", 1)] ("a", 0.995)
      (by norm_num [update_global_kappa])
  · exact C1_engine_invariants.2.2.2.2.1 exLayers 0 engine_layer_mobility []
      (by norm_num) (by intro L; cases L <;> norm_num [engine_layer_mobility])
      (by simp) exLayers_hyp .PHYSICAL ("e1", exState)
      (by rw [exLayers_aligned]; exact List.mem_singleton.mpr rfl)
  · exact C1_engine_invariants.2.2.2.2.2 5 0.5 (by norm_num) (by norm_num)
      (by norm_num) (by norm_num)

lemma layer_rs_foldl (sim : String → LayerType → ℚ) (layer : LayerType) :
    ∀ (l : List (String × StructuralState)) (a b : ℚ),
      l.foldl (layer_rs_step sim layer) (a, b)
        = (a + alignment_resistance_sum sim layer l,
           b + structural_interaction_sum sim layer l) := by
  intro l
  induction l with
  | nil =>
    intro a b
    simp [alignment_resistance_sum, structural_interaction_sum]
  | cons hd tl ih =>
    intro a b
    by_cases h : hd.2.layer = layer
    · have hr : alignment_resistance_sum sim layer (hd :: tl)
          = (1 - sim hd.1 layer) * hd.2.activation
            + alignment_resistance_sum sim layer tl := by
        simp [alignment_resistance_sum, List.filter_cons, h]
      have hs : structural_interaction_sum sim layer (hd :: tl)
          = sim hd.1 layer * hd.2.stability * 0.2
            + structural_interaction_sum sim layer tl := by
        simp [structural_interaction_sum, List.filter_cons, h]
      rw [List.foldl_cons]
      simp only [layer_rs_step, if_pos h]
      rw [ih, hr, hs]
      simp only [Prod.mk.injEq]
      constructor <;> ring
    · have hr : alignment_resistance_sum sim layer (hd :: tl)
          = alignment_resistance_sum sim layer tl := by
        simp [alignment_resistance_sum, List.filter_cons, h]
      have hs : structural_interaction_sum sim layer (hd :: tl)
          = structural_interaction_sum sim layer tl := by
        simp [structural_interaction_sum, List.filter_cons, h]
      rw [List.foldl_cons]
      simp only [layer_rs_step, if_neg h]
      rw [ih, hr, hs]

lemma calculate_layer_meaning_pressure_eq (sim : String → LayerType → ℚ)
    (obj_info : ObjectInfo) (layer : LayerType)
    (existing : List (String × StructuralState)) :
    calculate_layer_meaning_pressure sim obj_info layer existing
      = max 0 (claim_layer_pressure sim obj_info layer existing) := by
  unfold calculate_layer_meaning_pressure claim_layer_pressure
  rw [layer_rs_foldl]
  ring_nf

/-- C3 as stated is false: with zero meaning values, a dissimilar fully
activated BASE element (similarity oracle 0) and the engine mobilities, the
code returns total pressure 0 (the negative BASE-layer pressure is clamped at
0) while the claim's unclamped formula sums to −0.03. -/
theorem C3_total_pressure_counterexample :
    (calculate_total_pressure (fun _ _ => 0) cexObj cexStructures
        engine_layer_mobility ⟨0, []⟩).1 = 0
    ∧ claim_total_pressure (fun _ _ => 0) cexObj cexStructures
        engine_layer_mobility = -0.03
    ∧ (calculate_total_pressure (fun _ _ => 0) cexObj cexStructures
        engine_layer_mobility ⟨0, []⟩).1
      ≠ claim_total_pressure (fun _ _ => 0) cexObj cexStructures
          engine_layer_mobility := by
  have hclaim : claim_total_pressure (fun _ _ => 0) cexObj cexStructures
      engine_layer_mobility = -0.03 := by
    norm_num [claim_total_pressure, claim_layer_pressure, all_layers,
      alignment_resistance_sum, structural_interaction_sum, cexObj,
      cexStructures, engine_layer_mobility, List.filter_cons]
  have hcode : (calculate_total_pressure (fun _ _ => 0) cexObj cexStructures
      engine_layer_mobility ⟨0, []⟩).1 = 0 := by
    rw [calculate_total_pressure_fst]
    simp only [all_layers, List.foldl, calculate_layer_meaning_pressure_eq]
    norm_num [claim_layer_pressure, alignment_resistance_sum,
      structural_interaction_sum, cexObj, cexStructures,
      engine_layer_mobility, List.filter_cons, max_def]
  refine ⟨hcode, hclaim, ?_⟩
  rw [hcode, hclaim]
  norm_num

/-- C3 amended: `calculate_total_pressure` returns the sum over the four
layers of `max(0, φ·(1+α·S) − β·R + γ·S)` (the per-layer pressure is clamped
below at 0) weighted by that layer's mobility, and as a side effect updates
the global pressure to `E ← min(10, E + total·0.3)`. -/
theorem C3_total_pressure_amended (sim : String → LayerType → ℚ)
    (obj : ObjectInfo)
    (lss : LayerType → List (String × StructuralState))
    (mob : LayerType → ℚ) (st : MeaningState) :
    (calculate_total_pressure sim obj lss mob st).1
      = (all_layers.map (fun layer =>
          max 0 (claim_layer_pressure sim obj layer (lss layer))
            * mob layer)).sum
    ∧ (calculate_total_pressure sim obj lss mob st).2.E
      = min 10 (st.E + (calculate_total_pressure sim obj lss mob st).1 * 0.3) := by
  constructor
  · rw [calculate_total_pressure_fst]
    simp only [all_layers, List.foldl, List.map, List.sum_cons, List.sum_nil,
      calculate_layer_meaning_pressure_eq]
    ring
  · rfl

lemma cexGk_eval : cexGk = [("e1", 0.0995)] := by
  norm_num [cexGk, process_alignment_step, align_step4, align_step3,
    align_step2, align_step1, exLayers, process_layer_alignment_cons,
    process_layer_alignment_nil, element_kappa, lookupAssoc, defaultdict_get,
    exState, engine_layer_mobility, update_global_kappa]

lemma cexHeat_eval : cexHeat = 0.000994009 := by
  rw [cexHeat, exLayers_aligned, cexGk_eval]
  norm_num [process_alignment_step_with_heat_loss, heat_loss_elements,
    lookupAssoc, exState, engine_layer_mobility, layer_resistance]

/-- C8 as stated is false: after one engine alignment step (which populates
the global inertia table with the single entry κ("e1") = 0.0995) and one
heat-loss step (total heat 0.000994009), the code reports
1 − 0.000994009/max(1, 0.0995) = 0.999005991 while the claim's formula
1 − min(heat/Σκ, 0.95) gives 1 − 0.000994009/0.0995 ≈ 0.99001. -/
theorem C8_thermal_efficiency_counterexample :
    (get_alignment_statistics cexGk cexHeat).thermal_efficiency = 0.999005991
    ∧ claim_thermal_efficiency cexGk cexHeat ≠ 0.999005991 := by
  rw [cexGk_eval, cexHeat_eval]
  constructor
  · norm_num [get_alignment_statistics, sumKappaValues, min_def, max_def]
  · norm_num [claim_thermal_efficiency, sumKappaValues, min_def]

/-- C8 amended: `alignment_statistics` reports thermal_efficiency equal to
`1 − min(total_heat_loss / max(1, Σκ), 0.95)` — the source divides by
`max(1, Σκ)`, not by the bare sum `Σκ`.  Consequently the reported efficiency
always lies in [0.05, 1] when the accumulated heat is nonnegative. -/
theorem C8_thermal_efficiency_amended (gk : KappaMap) (heat : ℚ)
    (hheat : 0 ≤ heat) :
    (get_alignment_statistics gk heat).thermal_efficiency
        = 1 - min (heat / max 1 (sumKappaValues gk)) 0.95
    ∧ 0.05 ≤ (get_alignment_statistics gk heat).thermal_efficiency
    ∧ (get_alignment_statistics gk heat).thermal_efficiency ≤ 1 := by
  have hub : min (heat / max 1 (sumKappaValues gk)) 0.95 ≤ 0.95 :=
    min_le_right _ _
  have hdenom : (0:ℚ) < max 1 (sumKappaValues gk) :=
    lt_of_lt_of_le one_pos (le_max_left _ _)
  have hlb : 0 ≤ min (heat / max 1 (sumKappaValues gk)) 0.95 :=
    le_min (div_nonneg hheat (le_of_lt hdenom)) (by norm_num)
  refine ⟨rfl, ?_, ?_⟩
  · show (0.05:ℚ) ≤ 1 - min (heat / max 1 (sumKappaValues gk)) 0.95
    linarith
  · show 1 - min (heat / max 1 (sumKappaValues gk)) 0.95 ≤ (1:ℚ)
    linarith

/-- Witness for C8 amended at a concrete table and heat value. -/
theorem C8_thermal_efficiency_amended_witness :
    (get_alignment_statistics [("a", 1)] 2).thermal_efficiency
        = 1 - min (2 / max 1 (sumKappaValues [("a", 1)])) 0.95
    ∧ 0.05 ≤ (get_alignment_statistics [("a", 1)] 2).thermal_efficiency
    ∧ (get_alignment_statistics [("a", 1)] 2).thermal_efficiency ≤ 1 :=
  C8_thermal_efficiency_amended [("a", 1)] 2 (by norm_num)

/-- C5: stage-1 strength equals base response weight times intensity; a
threat stimulus whose strength exceeds 0.7 yields flee when intensity exceeds
0.8 and freeze otherwise; for a threat stimulus of intensity 0.9
(social_context false, danger_level 0.8) the immediate reaction has strength
0.95·0.9 = 0.855 and its action is flee or freeze. -/
theorem C5_immediate_reaction :
    (∀ (st : Stimulus) (t : ℚ),
      (immediate_base_layer_response st t).strength
        = base_response_weights st.type * st.intensity)
    ∧ (∀ (st : Stimulus) (t : ℚ), st.type = "threat" →
        (immediate_base_layer_response st t).strength > 0.7 →
        (immediate_base_layer_response st t).action
          = if st.intensity > 0.8 then "flee" else "freeze")
    ∧ (∀ t : ℚ,
        (immediate_base_layer_response exThreat t).strength = 0.855
        ∧ ((immediate_base_layer_response exThreat t).action = "flee"
            ∨ (immediate_base_layer_response exThreat t).action = "freeze")) := by
  have hstrength : ∀ (st : Stimulus) (t : ℚ),
      (immediate_base_layer_response st t).strength
        = base_response_weights st.type * st.intensity := fun _ _ => rfl
  have haction : ∀ (st : Stimulus) (t : ℚ), st.type = "threat" →
      (immediate_base_layer_response st t).strength > 0.7 →
      (immediate_base_layer_response st t).action
        = if st.intensity > 0.8 then "flee" else "freeze" := by
    intro st t h1 h2
    simp only [immediate_base_layer_response] at h2 ⊢
    rw [if_pos ⟨h1, h2⟩]
  refine ⟨hstrength, haction, fun t => ⟨?_, ?_⟩⟩
  · rw [hstrength]
    norm_num [exThreat, base_response_weights]
  · left
    have hgt : (immediate_base_layer_response exThreat t).strength > 0.7 := by
      rw [hstrength]
      norm_num [exThreat, base_response_weights]
    rw [haction exThreat t rfl hgt]
    norm_num [exThreat]

/-- Witness for C5 at the Scenario B stimulus and time 0. -/
theorem C5_immediate_reaction_witness :
    (immediate_base_layer_response exThreat 0).strength = 0.855
    ∧ ((immediate_base_layer_response exThreat 0).action = "flee"
        ∨ (immediate_base_layer_response exThreat 0).action = "freeze") :=
  C5_immediate_reaction.2.2 0

/-- C7: `make_decision` on an empty candidate list returns a null action and
a `DecisionInfo` with empty chosen action and empty score map, and leaves the
decision history (indeed the whole decision-system state) unchanged. -/
theorem C7_empty_actions (sys : DecisionSystem)
    (layers : LayerType → List (String × StructuralState)) (gk : KappaMap)
    (perceived : List (String × ObjectInfo)) (E : ℚ)
    (mob : LayerType → ℚ) (draw : ℚ) (i : ℕ) :
    make_decision sys [] layers gk perceived E mob draw i
        = (none, { chosen_action := "", scores := [] }, sys)
    ∧ (make_decision sys [] layers gk perceived E mob draw i).2.2.decision_history
        = sys.decision_history :=
  ⟨rfl, rfl⟩

/-- C9: running `process_conscious_reactions` a second time at the same
timestamp, with nothing enqueued in between, returns the empty list and
leaves the pending queue exactly as the first call left it. -/
theorem C9_reprocess_idempotent (pending : List PendingReaction) (t : ℚ)
    (layers : LayerType → List (String × StructuralState)) :
    process_conscious_reactions
        (process_conscious_reactions pending t layers).2 t layers
      = ([], (process_conscious_reactions pending t layers).2) := by
  have h1 : (pending.filter (fun r => decide (¬ t ≥ r.process_at))).filter
      (fun r => decide (t ≥ r.process_at)) = [] := by
    rw [List.filter_eq_nil_iff]
    intro a ha
    have h := (List.mem_filter.mp ha).2
    simp only [decide_eq_true_eq] at h ⊢
    exact h
  have h2 : (pending.filter (fun r => decide (¬ t ≥ r.process_at))).filter
      (fun r => decide (¬ t ≥ r.process_at))
      = pending.filter (fun r => decide (¬ t ≥ r.process_at)) := by
    rw [List.filter_eq_self]
    intro a ha
    exact (List.mem_filter.mp ha).2
  simp only [process_conscious_reactions, h1, h2, List.map_nil]

lemma pyMaxKey_mem (f : String → ℚ) :
    ∀ (rest : List String) (a : String), pyMaxKey f a rest ∈ a :: rest := by
  intro rest
  induction rest with
  | nil => intro a; simp [pyMaxKey]
  | cons x xs ih =>
    intro a
    unfold pyMaxKey at ih ⊢
    rw [List.foldl_cons]
    by_cases h : f x > f a
    · rw [if_pos h]
      exact List.mem_cons_of_mem a (ih x)
    · rw [if_neg h]
      rcases List.mem_cons.mp (ih a) with h1 | h1
      · rw [h1]
        exact List.mem_cons_self _ _
      · exact List.mem_cons_of_mem _ (List.mem_cons_of_mem _ h1)

lemma pyChoice_mem (actions : List String) (i : ℕ) (h : actions ≠ []) :
    pyChoice actions i ∈ actions := by
  unfold pyChoice
  have hlen : 0 < actions.length := List.length_pos.mpr h
  have hmod : i % actions.length < actions.length := Nat.mod_lt _ hlen
  rw [List.getD_eq_getElem _ _ hmod]
  exact List.getElem_mem hmod

lemma make_decision_fst (sys : DecisionSystem) (a : String)
    (rest : List String)
    (layers : LayerType → List (String × StructuralState)) (gk : KappaMap)
    (perceived : List (String × ObjectInfo)) (E : ℚ)
    (mob : LayerType → ℚ) (draw : ℚ) (i : ℕ) :
    (make_decision sys (a :: rest) layers gk perceived E mob draw i).1
      = some (if draw < sys.T * 0.5 then pyChoice (a :: rest) i
          else pyMaxKey (fun action =>
            evaluate_action action layers gk perceived mob) a rest) := rfl

/-- C10: on a non-empty candidate list, `make_decision` returns an element of
that list in both the exploration and the exploitation branch; on a singleton
list it returns that single action for every temperature and every random
draw. -/
theorem C10_decision_membership :
    (∀ (sys : DecisionSystem) (actions : List String)
      (layers : LayerType → List (String × StructuralState)) (gk : KappaMap)
      (perceived : List (String × ObjectInfo)) (E : ℚ)
      (mob : LayerType → ℚ) (draw : ℚ) (i : ℕ),
      actions ≠ [] →
      ∃ a, (make_decision sys actions layers gk perceived E mob draw i).1
          = some a ∧ a ∈ actions)
    ∧ (∀ (sys : DecisionSystem) (a : String)
      (layers : LayerType → List (String × StructuralState)) (gk : KappaMap)
      (perceived : List (String × ObjectInfo)) (E : ℚ)
      (mob : LayerType → ℚ) (draw : ℚ) (i : ℕ),
      (make_decision sys [a] layers gk perceived E mob draw i).1 = some a) := by
  constructor
  · intro sys actions layers gk perceived E mob draw i h
    match actions with
    | [] => exact absurd rfl h
    | a :: rest =>
      rw [make_decision_fst]
      refine ⟨_, rfl, ?_⟩
      by_cases hex : draw < sys.T * 0.5
      · rw [if_pos hex]
        exact pyChoice_mem (a :: rest) i (by simp)
      · rw [if_neg hex]
        exact pyMaxKey_mem _ rest a
  · intro sys a layers gk perceived E mob draw i
    rw [make_decision_fst]
    by_cases hex : draw < sys.T * 0.5
    · rw [if_pos hex]
      simp [pyChoice, Nat.mod_one]
    · rw [if_neg hex]
      rfl

/-- Witness for C10 on the singleton list ["observe"] and on a two-element
list. -/
theorem C10_decision_membership_witness :
    (∃ a, (make_decision {} ["observe", "eat"] (fun _ => []) [] [] 0
        engine_layer_mobility 1 0).1 = some a ∧ a ∈ ["observe", "eat"]) :=
  C10_decision_membership.1 {} ["observe", "eat"] (fun _ => []) [] [] 0
    engine_layer_mobility 1 0 (by simp)

lemma basic_threshold_eval : basic_leap_threshold [0.1] 0 0 = 0.88 := by
  unfold basic_leap_threshold
  rw [if_neg (by simp : ¬ (([0.1] : List ℝ) = []))]
  norm_num [max_def]

/-- C2 as stated is false for the chaotic variant: on the true-triggering
path (meaning pressure 5 above 1.2 times a zero alignment resistance), with
the attractor at the origin, a zero perturbation, the UPPER layer
(sensitivity 0.9) and the uniform draw 1.7, the computed chaotic leap
probability is exactly 1, which exceeds 0.95; the source clamps it only at
1.0 (`min(1.0, ...)`), never into [0.05, 0.95]. -/
theorem C2_leap_probability_counterexample :
    (5:ℝ) > 0 * 1.2
    ∧ (calculate_leap_probability 5 0 LayerType.UPPER ⟨0, 0, 0⟩ ⟨0, 0, 0⟩
        1.7).1 = 1
    ∧ ¬ ((calculate_leap_probability 5 0 LayerType.UPPER ⟨0, 0, 0⟩ ⟨0, 0, 0⟩
        1.7).1 ≤ 0.95) := by
  have h0 : (5:ℝ) > 0 * 1.2 := by norm_num
  have htanh : 0 ≤ Real.tanh ((5:ℝ)/10) := by
    rw [Real.tanh_eq_sinh_div_cosh]
    positivity
  have hs : Real.sin ((5:ℝ)/10 * Real.pi) = 1 := by
    rw [show (5:ℝ)/10 * Real.pi = Real.pi/2 by ring]
    exact Real.sin_pi_div_two
  have hc : Real.cos ((0:ℝ)/10 * Real.pi) = 1 := by
    norm_num [Real.cos_zero]
  have he : Real.exp (-((0:ℝ)/10)) = 1 := by
    norm_num [Real.exp_zero]
  have heq : (calculate_leap_probability 5 0 LayerType.UPPER ⟨0, 0, 0⟩
      ⟨0, 0, 0⟩ 1.7).1 = 1 := by
    unfold calculate_leap_probability
    rw [if_pos h0]
    unfold update_strange_attractor get_layer_leap_sensitivity
    dsimp only
    rw [hs, hc, he]
    have habs : |(1:ℝ) * 1 + 1 * Real.tanh (5/10)
        + (0 + 10 * (0 - 0) * 0.01 + 0) * (0 + (0 * (28 - 0) - 0) * 0.01 + 0)
          * (0 + (0 * 0 - 8 / 3 * 0) * 0.01 + 0) / 10|
        = 1 + Real.tanh (5/10) := by
      rw [abs_of_nonneg (by nlinarith [htanh])]
      ring
    rw [habs]
    rw [min_eq_left (by nlinarith [htanh])]
  exact ⟨h0, heq, by rw [heq]; norm_num⟩

/-- C2 amended: on the true-triggering path the basic controller's computed
leap probability lies within [0.05, 0.95] (the source clamps it there), while
the chaotic variant's computed probability lies only within [0, 1] (the
source clamps it above at 1.0 and it can fall below 0.05 or reach 1). -/
theorem C2_leap_probability_amended :
    (∀ (current_E : ℝ) (kappa_values : List ℝ) (surv fluct : ℝ),
      current_E > basic_leap_threshold kappa_values surv fluct →
      0.05 ≤ check_leap_probability current_E
          (basic_leap_threshold kappa_values surv fluct) surv
        ∧ check_leap_probability current_E
          (basic_leap_threshold kappa_values surv fluct) surv ≤ 0.95)
    ∧ (∀ (mp ar : ℝ) (layer : LayerType) (s pert : AttractorState) (u : ℝ),
      0 ≤ u → mp > ar * 1.2 →
      0 ≤ (calculate_leap_probability mp ar layer s pert u).1
        ∧ (calculate_leap_probability mp ar layer s pert u).1 ≤ 1) := by
  constructor
  · intro current_E kv surv fluct _
    unfold check_leap_probability
    constructor
    · exact le_min (le_max_right _ _) (by norm_num)
    · exact min_le_right _ _
  · intro mp ar layer s pert u hu htrig
    have hsens : 0 ≤ get_layer_leap_sensitivity layer := by
      cases layer <;> norm_num [get_layer_leap_sensitivity]
    unfold calculate_leap_probability
    rw [if_pos htrig]
    dsimp only
    constructor
    · exact le_min (by norm_num)
        (mul_nonneg (mul_nonneg (abs_nonneg _) hsens) hu)
    · exact min_le_left _ _

/-- Witness for C2 amended: the basic controller at E = 2 above the concrete
threshold 0.88, and the chaotic variant at pressure 1 against resistance 0. -/
theorem C2_leap_probability_amended_witness :
    (0.05 ≤ check_leap_probability 2 (basic_leap_threshold [0.1] 0 0) 0
      ∧ check_leap_probability 2 (basic_leap_threshold [0.1] 0 0) 0 ≤ 0.95)
    ∧ (0 ≤ (calculate_leap_probability 1 0 LayerType.BASE ⟨0, 0, 0⟩ ⟨0, 0, 0⟩
          1).1
      ∧ (calculate_leap_probability 1 0 LayerType.BASE ⟨0, 0, 0⟩ ⟨0, 0, 0⟩
          1).1 ≤ 1) := by
  constructor
  · exact C2_leap_probability_amended.1 2 [0.1] 0 0
      (by rw [basic_threshold_eval]; norm_num)
  · exact C2_leap_probability_amended.2 1 0 LayerType.BASE ⟨0, 0, 0⟩ ⟨0, 0, 0⟩
      1 (by norm_num) (by norm_num)

lemma length_cacheInsert_le (c : Cache) (k : CacheKey) (v : PredictionResult) :
    (cacheInsert c k v).length ≤ c.length + 1 := by
  unfold cacheInsert
  by_cases h : c.any (fun p => decide (p.1 = k))
  · rw [if_pos h, List.length_map]
    omega
  · rw [if_neg h, List.length_append]
    simp

lemma nodup_cacheInsert (c : Cache) (k : CacheKey) (v : PredictionResult)
    (h : CacheKeysNodup c) : CacheKeysNodup (cacheInsert c k v) := by
  unfold cacheInsert CacheKeysNodup
  by_cases hany : c.any (fun p => decide (p.1 = k))
  · rw [if_pos hany]
    have hkeys : (c.map (fun p => if p.1 = k then (k, v) else p)).map
        (fun p => p.1) = c.map (fun p => p.1) := by
      rw [List.map_map]
      apply List.map_congr_left
      intro p _
      by_cases hp : p.1 = k
      · simp [hp]
      · simp [hp]
    rw [hkeys]
    exact h
  · rw [if_neg hany, List.map_append, List.nodup_append]
    refine ⟨h, by simp, ?_⟩
    intro a ha hak
    simp only [List.map_cons, List.map_nil, List.mem_singleton] at hak
    subst hak
    obtain ⟨p, hp, hpk⟩ := List.mem_map.mp ha
    exact hany (List.any_eq_true.mpr ⟨p, hp, by simp [hpk]⟩)

lemma mem_cacheFresh {c : Cache} {t : ℤ} {p : CacheKey × PredictionResult} :
    p ∈ cacheFresh c t ↔ p ∈ c ∧ t - p.2.timestamp ≤ 10 := by
  simp [cacheFresh]

lemma nodup_cacheFresh (c : Cache) (t : ℤ) (h : CacheKeysNodup c) :
    CacheKeysNodup (cacheFresh c t) :=
  ((List.filter_sublist c).map
    (fun p : CacheKey × PredictionResult => p.1)).nodup h

lemma length_cacheFresh_le (c : Cache) (t : ℤ) :
    (cacheFresh c t).length ≤ c.length :=
  List.length_filter_le _ c

lemma cleanup_eq_of_le (c : Cache) (t : ℤ)
    (h : ¬ 50 < (cacheFresh c t).length) :
    cleanup_prediction_cache c t = cacheFresh c t := by
  unfold cleanup_prediction_cache
  rw [if_neg h]

lemma cleanup_eq_of_lt (c : Cache) (t : ℤ)
    (h : 50 < (cacheFresh c t).length) :
    cleanup_prediction_cache c t
      = (cacheFresh c t).filter (fun p => decide (p.1 ∉
          (((cacheFresh c t).mergeSort byTimestamp).take
            ((cacheFresh c t).length / 2)).map (fun q => q.1))) := by
  unfold cleanup_prediction_cache
  rw [if_pos h]

lemma cleanup_subset_fresh (c : Cache) (t : ℤ) :
    ∀ p ∈ cleanup_prediction_cache c t, p ∈ cacheFresh c t := by
  intro p hp
  by_cases h : 50 < (cacheFresh c t).length
  · rw [cleanup_eq_of_lt c t h] at hp
    exact (List.mem_filter.mp hp).1
  · rw [cleanup_eq_of_le c t h] at hp
    exact hp

lemma cleanup_stale_removed (c : Cache) (t : ℤ) :
    ∀ p ∈ cleanup_prediction_cache c t, t - p.2.timestamp ≤ 10 := fun p hp =>
  (mem_cacheFresh.mp (cleanup_subset_fresh c t p hp)).2

lemma nodup_cleanup (c : Cache) (t : ℤ) (h : CacheKeysNodup c) :
    CacheKeysNodup (cleanup_prediction_cache c t) := by
  by_cases hlt : 50 < (cacheFresh c t).length
  · rw [cleanup_eq_of_lt c t hlt]
    exact ((List.filter_sublist _).map
      (fun p : CacheKey × PredictionResult => p.1)).nodup
      (nodup_cacheFresh c t h)
  · rw [cleanup_eq_of_le c t hlt]
    exact nodup_cacheFresh c t h

lemma length_filter_not_mem_keys_split (tk dr : Cache)
    (hnd : ((tk ++ dr).map (fun p => p.1)).Nodup) :
    ((tk ++ dr).filter (fun p =>
        decide (p.1 ∉ tk.map (fun q => q.1)))).length = dr.length := by
  rw [List.filter_append]
  rw [List.map_append, List.nodup_append] at hnd
  obtain ⟨-, -, hdisj⟩ := hnd
  have hv : tk.filter (fun p => decide (p.1 ∉ tk.map (fun q => q.1))) = [] := by
    rw [List.filter_eq_nil_iff]
    intro p hp
    simp only [decide_eq_true_eq, Decidable.not_not]
    exact List.mem_map_of_mem _ hp
  have hr : dr.filter (fun p => decide (p.1 ∉ tk.map (fun q => q.1))) = dr := by
    rw [List.filter_eq_self]
    intro p hp
    simp only [decide_eq_true_eq]
    intro hmem
    exact hdisj hmem (List.mem_map_of_mem _ hp)
  rw [hv, hr, List.nil_append]

lemma cleanup_length_eq (c : Cache) (t : ℤ) (hnd : CacheKeysNodup c)
    (hlen : 50 < (cacheFresh c t).length) :
    (cleanup_prediction_cache c t).length
      = (cacheFresh c t).length - (cacheFresh c t).length / 2 := by
  rw [cleanup_eq_of_lt c t hlen]
  have hndf : CacheKeysNodup (cacheFresh c t) := nodup_cacheFresh c t hnd
  have hperm : ((cacheFresh c t).mergeSort byTimestamp).Perm (cacheFresh c t) :=
    List.mergeSort_perm _ _
  have hnds : (((cacheFresh c t).mergeSort byTimestamp).map
      (fun p => p.1)).Nodup := ((hperm.map (fun p => p.1)).symm).nodup hndf
  have hsplit := List.take_append_drop ((cacheFresh c t).length / 2)
    ((cacheFresh c t).mergeSort byTimestamp)
  have hhelp := length_filter_not_mem_keys_split
    (((cacheFresh c t).mergeSort byTimestamp).take ((cacheFresh c t).length / 2))
    (((cacheFresh c t).mergeSort byTimestamp).drop ((cacheFresh c t).length / 2))
    (by rw [hsplit]; exact hnds)
  rw [hsplit] at hhelp
  have hfl : ((cacheFresh c t).filter (fun p => decide (p.1 ∉
      (((cacheFresh c t).mergeSort byTimestamp).take
        ((cacheFresh c t).length / 2)).map (fun q => q.1)))).length
      = (((cacheFresh c t).mergeSort byTimestamp).filter (fun p => decide (p.1 ∉
          (((cacheFresh c t).mergeSort byTimestamp).take
            ((cacheFresh c t).length / 2)).map (fun q => q.1)))).length :=
    ((hperm.filter _).length_eq).symm
  rw [hfl, hhelp, List.length_drop, List.length_mergeSort]

lemma cleanup_length_le_50 (c : Cache) (t : ℤ) (hnd : CacheKeysNodup c)
    (hlen : c.length ≤ 100) :
    (cleanup_prediction_cache c t).length ≤ 50 := by
  by_cases hlt : 50 < (cacheFresh c t).length
  · rw [cleanup_length_eq c t hnd hlt]
    have := length_cacheFresh_le c t
    omega
  · rw [cleanup_eq_of_le c t hlt]
    omega

lemma predict_future_state_cache_inv (sys : PredictionSystem) (id : String)
    (perceived : List (String × ObjectInfo)) (steps : ℕ) (t : ℤ)
    (noise : ℕ → ℚ)
    (hnd : CacheKeysNodup sys.prediction_cache)
    (hlen : sys.prediction_cache.length ≤ 100) :
    CacheKeysNodup
        (predict_future_state sys id perceived steps t noise).2.prediction_cache
      ∧ (predict_future_state sys id perceived steps t
          noise).2.prediction_cache.length ≤ 100 := by
  unfold predict_future_state
  dsimp only
  split
  · exact ⟨hnd, hlen⟩
  · split
    · exact ⟨hnd, hlen⟩
    · dsimp only
      split
      case _ h =>
        refine ⟨nodup_cacheInsert _ _ _ hnd, ?_⟩
        exact le_trans (length_cacheInsert_le _ _ _) (by omega)
      case _ h =>
        refine ⟨nodup_cacheInsert _ _ _ (nodup_cleanup _ t hnd), ?_⟩
        have h1 := cleanup_length_le_50 sys.prediction_cache t hnd hlen
        exact le_trans (length_cacheInsert_le _ _ _) (by omega)

lemma run_predictions_cache_inv (calls : List PredictCall) :
    ∀ sys : PredictionSystem,
      CacheKeysNodup sys.prediction_cache →
      sys.prediction_cache.length ≤ 100 →
      CacheKeysNodup (run_predictions sys calls).prediction_cache
        ∧ (run_predictions sys calls).prediction_cache.length ≤ 100 := by
  induction calls with
  | nil => intro sys hnd hlen; exact ⟨hnd, hlen⟩
  | cons c cs ih =>
    intro sys hnd hlen
    have hstep := predict_future_state_cache_inv sys c.target_object_id
      c.perceived_objects c.steps_ahead c.current_time c.noise hnd hlen
    exact ih _ hstep.1 hstep.2

/-- C4: across every sequence of `predict_future_state` calls the prediction
cache stays at ≤ 100 entries (with pairwise distinct keys); the cleanup
triggered at the cap removes every entry more than 10 ticks old, and when
more than 50 entries remain after the expiry pass it removes exactly the
oldest half (`len/2` entries of the remainder, sorted by timestamp) before
the new entry is inserted. -/
theorem C4_cache_bound :
    (∀ (sys : PredictionSystem) (calls : List PredictCall),
      CacheKeysNodup sys.prediction_cache →
      sys.prediction_cache.length ≤ 100 →
      CacheKeysNodup (run_predictions sys calls).prediction_cache
        ∧ (run_predictions sys calls).prediction_cache.length ≤ 100)
    ∧ (∀ (c : Cache) (t : ℤ), ∀ p ∈ cleanup_prediction_cache c t,
        t - p.2.timestamp ≤ 10)
    ∧ (∀ (c : Cache) (t : ℤ), CacheKeysNodup c →
        50 < (cacheFresh c t).length →
        (cleanup_prediction_cache c t).length
          = (cacheFresh c t).length - (cacheFresh c t).length / 2) :=
  ⟨fun sys calls hnd hlen => run_predictions_cache_inv calls sys hnd hlen,
   cleanup_stale_removed,
   cleanup_length_eq⟩

lemma c4Cache_nodup : CacheKeysNodup c4Cache := by decide

lemma c4Cache_fresh_len : 50 < (cacheFresh c4Cache 10).length := by decide

/-- Witness for C4: the invariant holds after one call from an empty cache;
the single fresh entry survives a cleanup; the 51-entry cache is cut to
51 − 25 = 26 entries. -/
theorem C4_cache_bound_witness :
    (CacheKeysNodup (run_predictions {}
        [⟨"o", [("o", exObj)], 3, 0, fun _ => 0⟩]).prediction_cache
      ∧ (run_predictions {}
        [⟨"o", [("o", exObj)], 3, 0, fun _ => 0⟩]).prediction_cache.length ≤ 100)
    ∧ (0 : ℤ) - c4Entry.2.timestamp ≤ 10
    ∧ (cleanup_prediction_cache c4Cache 10).length
        = (cacheFresh c4Cache 10).length - (cacheFresh c4Cache 10).length / 2 := by
  refine ⟨?_, ?_, ?_⟩
  · exact C4_cache_bound.1 {} [⟨"o", [("o", exObj)], 3, 0, fun _ => 0⟩]
      (by simp [CacheKeysNodup]) (by simp)
  · exact C4_cache_bound.2.1 [c4Entry] 0 c4Entry
      (by simp [cleanup_prediction_cache, cacheFresh, c4Entry])
  · exact C4_cache_bound.2.2 c4Cache 10 c4Cache_nodup c4Cache_fresh_len

lemma c6Sys1_cache : c6Sys1.prediction_cache = [(("o", 0), c6Res)] := by
  norm_num [c6Sys1, predict_future_state, cacheLookup, lookupAssoc,
    cacheInsert, calculate_trend_modifier, assess_crisis_level,
    calculate_prediction_confidence, c6Obj, c6Res, min_def, max_def]

/-- C6 as stated is false: after a call with the object present has cached a
non-neutral result, a second call at the same tick with the object absent
from the perceived dictionary hits the still-fresh cache entry and returns
the cached result (current_value 7, confidence 0.8) instead of the neutral
result (current_value 0, confidence 0) the claim requires. -/
theorem C6_absent_object_counterexample :
    lookupAssoc ([] : List (String × ObjectInfo)) "o" = none
    ∧ (predict_future_state c6Sys1 "o" [] 0 0 (fun _ => 0)).1.current_value = 7
    ∧ (predict_future_state c6Sys1 "o" [] 0 0 (fun _ => 0)).1.confidence = 0.8
    ∧ ¬ ((predict_future_state c6Sys1 "o" [] 0 0
          (fun _ => 0)).1.current_value = 0) := by
  have hl : cacheLookup c6Sys1.prediction_cache ("o", 0) = some c6Res := by
    rw [c6Sys1_cache]
    simp [cacheLookup]
  have heval : (predict_future_state c6Sys1 "o" [] 0 0 (fun _ => 0)).1
      = c6Res := by
    unfold predict_future_state
    dsimp only
    rw [hl]
    norm_num [c6Res]
  refine ⟨rfl, ?_, ?_, ?_⟩
  · rw [heval]
    norm_num [c6Res]
  · rw [heval]
    norm_num [c6Res]
  · rw [heval]
    norm_num [c6Res]

/-- C6 amended: a `predict_future_state` call whose target object id is
absent from the perceived-objects dictionary returns the neutral result
(current_value 0, no predictions, crisis "none", confidence 0) and leaves the
system state unchanged, provided no fresh cache entry (less than 5 ticks old)
exists for that (object id, horizon) key; a fresh cached entry is returned
as-is even for an absent object. -/
theorem C6_absent_object_amended (sys : PredictionSystem) (id : String)
    (perceived : List (String × ObjectInfo)) (steps : ℕ) (t : ℤ)
    (noise : ℕ → ℚ)
    (hcache : ∀ cached,
      cacheLookup sys.prediction_cache (id, steps) = some cached →
      ¬ (t - cached.timestamp < 5))
    (habsent : lookupAssoc perceived id = none) :
    predict_future_state sys id perceived steps t noise
      = ({ object_id := id, current_value := 0, predictions := [],
           crisis_level := "none", confidence := 0, timestamp := t }, sys) := by
  have hhit : (match cacheLookup sys.prediction_cache (id, steps) with
      | some cached => if t - cached.timestamp < 5 then some cached else none
      | none => none) = (none : Option PredictionResult) := by
    cases hlk : cacheLookup sys.prediction_cache (id, steps) with
    | none => rfl
    | some cached => simp [if_neg (hcache cached hlk)]
  unfold predict_future_state
  dsimp only
  rw [hhit, habsent]

/-- Witness for C6 amended: empty cache, empty perception. -/
theorem C6_absent_object_amended_witness :
    predict_future_state {} "z" [] 3 0 (fun _ => 0)
      = ({ object_id := "z", current_value := 0, predictions := [],
           crisis_level := "none", confidence := 0, timestamp := 0 }, {}) :=
  C6_absent_object_amended {} "z" [] 3 0 (fun _ => 0)
    (by intro c h; simp [cacheLookup] at h) rfl

end SSD
